import Mathlib

/-!
Verification of the FIR filter design engine in `filter_calculations.py`
(class `FilterCalculator`).  The Python code is shallowly embedded:
floating-point numbers become real numbers, `raise ValueError(...)` becomes
`Except.error`, NumPy arrays of length `N` become functions `ℕ → ℝ`
together with the recorded order `N`, and the window-parameter dictionary
becomes an ordered association list (Python dicts preserve insertion order).
-/

noncomputable section

open Classical

/-- One entry of `FilterCalculator.window_parameters`
(`filter_calculations.py`, lines 17-77). -/
structure WindowParams where
  largura_transicao_normalizada : ℝ
  ondulacao_banda_passante_db : ℝ
  lobulo_principal_lateral_db : Option ℝ
  atenuacao_banda_rejeicao_db : ℝ
  beta : Option ℝ
  expressao : String

def retangularParams : WindowParams :=
  { largura_transicao_normalizada := 0.9
    ondulacao_banda_passante_db := 0.7416
    lobulo_principal_lateral_db := some 13
    atenuacao_banda_rejeicao_db := 21
    beta := none
    expressao := "w(n) = 1" }

def bartlettParams : WindowParams :=
  { largura_transicao_normalizada := 2.3
    ondulacao_banda_passante_db := 0.185
    lobulo_principal_lateral_db := some 25
    atenuacao_banda_rejeicao_db := 25
    beta := none
    expressao := "w(n) = 2 - 2n/M" }

def hanningParams : WindowParams :=
  { largura_transicao_normalizada := 3.1
    ondulacao_banda_passante_db := 0.0546
    lobulo_principal_lateral_db := some 31
    atenuacao_banda_rejeicao_db := 44
    beta := none
    expressao := "w(n) = 0.5 + 0.5*cos(2pin/N)" }

def hammingParams : WindowParams :=
  { largura_transicao_normalizada := 3.3
    ondulacao_banda_passante_db := 0.0194
    lobulo_principal_lateral_db := some 41
    atenuacao_banda_rejeicao_db := 53
    beta := none
    expressao := "w(n) = 0.54 + 0.46*cos(2pin/N)" }

def blackmanParams : WindowParams :=
  { largura_transicao_normalizada := 5.5
    ondulacao_banda_passante_db := 0.0017
    lobulo_principal_lateral_db := some 57
    atenuacao_banda_rejeicao_db := 75
    beta := none
    expressao := "w(n) = 0.42 + 0.5*cos(2pin/N) + 0.08*cos(4pin/(N-1))" }

def kaiser454Params : WindowParams :=
  { largura_transicao_normalizada := 2.93
    ondulacao_banda_passante_db := 0.0274
    lobulo_principal_lateral_db := none
    atenuacao_banda_rejeicao_db := 50
    beta := some 4.54
    expressao := "I0(b sqrt(1-(2n/(N-1))^2))/I0(b)" }

def kaiser676Params : WindowParams :=
  { largura_transicao_normalizada := 4.32
    ondulacao_banda_passante_db := 0.00275
    lobulo_principal_lateral_db := none
    atenuacao_banda_rejeicao_db := 70
    beta := some 6.76
    expressao := "I0(b sqrt(1-(2n/(N-1))^2))/I0(b)" }

def kaiser896Params : WindowParams :=
  { largura_transicao_normalizada := 5.71
    ondulacao_banda_passante_db := 0.000275
    lobulo_principal_lateral_db := none
    atenuacao_banda_rejeicao_db := 90
    beta := some 8.96
    expressao := "I0(b sqrt(1-(2n/(N-1))^2))/I0(b)" }

/-- The `self.window_parameters` dictionary, as an insertion-ordered
association list (`filter_calculations.py`, lines 17-77). -/
def window_parameters : List (String × WindowParams) :=
  [("Retangular", retangularParams),
   ("Bartlett", bartlettParams),
   ("Hanning", hanningParams),
   ("Hamming", hammingParams),
   ("Blackman", blackmanParams),
   ("Kaiser_beta_4.54", kaiser454Params),
   ("Kaiser_beta_6.76", kaiser676Params),
   ("Kaiser_beta_8.96", kaiser896Params)]

/-- Python dictionary lookup `self.window_parameters[name]`; `none` models a
`KeyError`. -/
def lookupWindow (name : String) : Option WindowParams :=
  (window_parameters.find? (fun q => q.1 == name)).map Prod.snd

/-- `FilterCalculator.get_available_windows` (lines 79-93): iterate the
catalog in insertion order and keep every window whose
`atenuacao_banda_rejeicao_db` is `>= required_attenuation`. -/
def get_available_windows (required_attenuation : ℝ) : List String :=
  (window_parameters.filter
    (fun q => decide (q.2.atenuacao_banda_rejeicao_db ≥ required_attenuation))).map Prod.fst

/-- The `fp_values` argument of `calculate_cutoff_frequencies`: Python passes
either a single float (LowPass/HighPass) or a two-element sequence
(BandPass/BandStop). -/
inductive FpValues where
  | single (v : ℝ)
  | pair (v1 v2 : ℝ)

/-- `FilterCalculator.calculate_cutoff_frequencies` (lines 95-167).
`Except.error` models `raise ValueError`; a shape mismatch between the
filter type and `fp_values` raises a `TypeError` in Python and is modelled
by the distinguished message `"TypeError"`.  Unrecognized filter types fall
through the `if`/`elif` chain and return the initial empty list. -/
def calculate_cutoff_frequencies (filter_type : String) (fp_values : FpValues)
    (transition_width fs : ℝ) : Except String (List ℝ) :=
  if filter_type = "Passa-Baixa" then
    match fp_values with
    | .pair _ _ => .error "TypeError"
    | .single fp =>
      if fp ≥ fs / 2 then
        .error "Frequencia da banda passante deve ser menor que Fs/2"
      else
        let fs_freq := fp + transition_width
        let fc := (fp + fs_freq) / 2
        .ok [fc]
  else if filter_type = "Passa-Alta" then
    match fp_values with
    | .pair _ _ => .error "TypeError"
    | .single fp =>
      if fp ≥ fs / 2 then
        .error "Frequencia da banda passante deve ser menor que Fs/2"
      else
        let fs_freq := fp - transition_width
        if fs_freq ≤ 0 then
          .error "Para passa-alta: fp - largura_transicao deve ser > 0"
        else
          let fc := (fs_freq + fp) / 2
          .ok [fc]
  else if filter_type = "Passa-Banda" then
    match fp_values with
    | .single _ => .error "TypeError"
    | .pair fp1 fp2 =>
      if fp1 ≥ fp2 then .error "Frequencia inferior deve ser menor que a superior"
      else if fp2 ≥ fs / 2 then .error "Frequencia superior deve ser menor que Fs/2"
      else if fp1 ≤ 0 then .error "Frequencia inferior deve ser positiva"
      else
        let fs1 := fp1 - transition_width
        let fs2 := fp2 + transition_width
        if fs1 ≤ 0 then .error "Para passa-banda: fp1 - largura_transicao deve ser > 0"
        else if fs2 ≥ fs / 2 then .error "Para passa-banda: fp2 + largura_transicao deve ser < Fs/2"
        else
          let fc1 := (fs1 + fp1) / 2
          let fc2 := (fp2 + fs2) / 2
          .ok [fc1, fc2]
  else if filter_type = "Rejeita-Banda" then
    match fp_values with
    | .single _ => .error "TypeError"
    | .pair fp1 fp2 =>
      if fp1 ≥ fp2 then .error "Frequencia inferior deve ser menor que a superior"
      else if fp2 ≥ fs / 2 then .error "Frequencia superior deve ser menor que Fs/2"
      else if fp1 ≤ 0 then .error "Frequencia inferior deve ser positiva"
      else
        let fs1 := fp1 - transition_width
        let fs2 := fp2 + transition_width
        if fs1 ≤ 0 then .error "Para rejeita-banda: fp1 - largura_transicao deve ser > 0"
        else if fs2 ≥ fs / 2 then .error "Para rejeita-banda: fp2 + largura_transicao deve ser < Fs/2"
        else
          let fc1 := (fs1 + fp1) / 2
          let fc2 := (fp2 + fs2) / 2
          .ok [fc1, fc2]
  else
    .ok []

/-- `p` is a prefix of the second list (auxiliary for the Python substring
test `'Kaiser' in window_name`). -/
def startsWithL : List Char → List Char → Bool
  | [], _ => true
  | _ :: _, [] => false
  | p :: ps, c :: cs => p == c && startsWithL ps cs

/-- `pat` occurs as a contiguous substring of the second list; for a
non-empty `pat` this is exactly Python's `pat in s`. -/
def containsSub (pat : List Char) : List Char → Bool
  | [] => startsWithL pat []
  | c :: cs => startsWithL pat (c :: cs) || containsSub pat cs

def kaiserChars : List Char := "Kaiser".toList

/-- Lines 195-200 of `calculate_filter_order`: force the order odd
(`if order % 2 == 0: order += 1`) and clamp it
(`order = max(11, min(10001, order))`). -/
def clampOdd (order : ℤ) : ℤ :=
  let order1 := if order % 2 = 0 then order + 1 else order
  max 11 (min 10001 order1)

/-- `FilterCalculator.calculate_filter_order` (lines 169-202).
`stopband_atten = none` models the Python default `None`; the code's
`stopband_atten if stopband_atten else ...` is a truthiness test, so a
supplied value of `0` also falls back to the catalog figure.  An unknown
window name raises `KeyError` at the dictionary access. -/
def calculate_filter_order (transition_width fs : ℝ) (window_name : String)
    (stopband_atten : Option ℝ) : Except String ℤ :=
  let delta_f_norm := transition_width / fs
  match lookupWindow window_name with
  | none => .error "KeyError"
  | some window_params =>
    if containsSub kaiserChars window_name.toList then
      let A := match stopband_atten with
        | none => window_params.atenuacao_banda_rejeicao_db
        | some a => if a = 0 then window_params.atenuacao_banda_rejeicao_db else a
      match window_params.beta with
      | none => .error "KeyError"
      | some _beta =>
        let M := (A - 8) / (2.285 * 2 * Real.pi * delta_f_norm)
        .ok (clampOdd ⌈M⌉)
    else
      let factor := window_params.largura_transicao_normalizada
      let N_calc := factor / delta_f_norm
      .ok (clampOdd ⌈N_calc⌉)

/-- Modelled from the spec: the two-branch order formula of section 4.3
(`OrderEstimator`), used as the reference definition for the refinement
claim about `calculate_filter_order`.  A Kaiser variant is recognized by
its catalog shape parameter, and `A'` is the supplied attenuation whenever
one is provided, else the window's nominal stopband attenuation. -/
def referenceOrder (transition_width fs : ℝ) (window_name : String)
    (stopband_atten : Option ℝ) : Except String ℤ :=
  let delta_f_norm := transition_width / fs
  match lookupWindow window_name with
  | none => .error "KeyError"
  | some w =>
    match w.beta with
    | some _beta =>
      let A := stopband_atten.getD w.atenuacao_banda_rejeicao_db
      .ok (clampOdd ⌈(A - 8) / (2.285 * 2 * Real.pi * delta_f_norm)⌉)
    | none =>
      .ok (clampOdd ⌈w.largura_transicao_normalizada / delta_f_norm⌉)

/-- `FilterCalculator.ideal_lowpass` (lines 204-219): value of `h[i]`. -/
def idealLowpass (N : ℕ) (fc_norm : ℝ) (i : ℕ) : ℝ :=
  let n_centered := (i : ℝ) - ((N : ℝ) - 1) / 2
  if |n_centered| < 1e-10 then
    2 * fc_norm
  else
    let omega_c := fc_norm * Real.pi
    2 * fc_norm * Real.sin (omega_c * n_centered) / (omega_c * n_centered)

/-- `FilterCalculator.ideal_highpass` (lines 221-239): value of `h[i]`. -/
def idealHighpass (N : ℕ) (fc_norm : ℝ) (i : ℕ) : ℝ :=
  let n_centered := (i : ℝ) - ((N : ℝ) - 1) / 2
  if |n_centered| < 1e-10 then
    1.0 - fc_norm
  else
    let delta_impulse := Real.sin (Real.pi * n_centered) / (Real.pi * n_centered)
    let sinc_arg := fc_norm * n_centered
    let lowpass := fc_norm * Real.sin (Real.pi * sinc_arg) / (Real.pi * sinc_arg)
    delta_impulse - lowpass

/-- `FilterCalculator.ideal_bandpass` (lines 241-258): value of `h[i]`. -/
def idealBandpass (N : ℕ) (fc1_norm fc2_norm : ℝ) (i : ℕ) : ℝ :=
  let n_centered := (i : ℝ) - ((N : ℝ) - 1) / 2
  if |n_centered| < 1e-10 then
    fc2_norm - fc1_norm
  else
    let omega_c1 := fc1_norm * Real.pi
    let omega_c2 := fc2_norm * Real.pi
    fc2_norm * Real.sin (omega_c2 * n_centered) / (omega_c2 * n_centered) -
      fc1_norm * Real.sin (omega_c1 * n_centered) / (omega_c1 * n_centered)

/-- `FilterCalculator.ideal_bandstop` (lines 260-278): value of `h[i]`. -/
def idealBandstop (N : ℕ) (fc1_norm fc2_norm : ℝ) (i : ℕ) : ℝ :=
  let n_centered := (i : ℝ) - ((N : ℝ) - 1) / 2
  if |n_centered| < 1e-10 then
    1 - (fc2_norm - fc1_norm)
  else
    let pass_all := Real.sin (Real.pi * n_centered) / (Real.pi * n_centered)
    let stop_band := (Real.sin (Real.pi * fc2_norm * n_centered) -
      Real.sin (Real.pi * fc1_norm * n_centered)) / (Real.pi * n_centered)
    pass_all - stop_band

/-- `scipy.signal.get_window('boxcar', N, fftbins=False)`: all ones. -/
def boxcarW (_N _i : ℕ) : ℝ := 1

/-- `scipy.signal.get_window('bartlett', N, fftbins=False)`: the symmetric
triangular window `2n/(N-1)` on the first half, `2 - 2n/(N-1)` on the
second. -/
def bartlettW (N i : ℕ) : ℝ :=
  if (i : ℝ) ≤ ((N : ℝ) - 1) / 2 then
    2 * (i : ℝ) / ((N : ℝ) - 1)
  else
    2 - 2 * (i : ℝ) / ((N : ℝ) - 1)

/-- `scipy.signal.get_window('hann', N, fftbins=False)`:
`0.5 - 0.5 cos(2 pi n / (N-1))`. -/
def hannW (N i : ℕ) : ℝ :=
  0.5 - 0.5 * Real.cos (2 * Real.pi * (i : ℝ) / ((N : ℝ) - 1))

/-- `scipy.signal.get_window('hamming', N, fftbins=False)`:
`0.54 - 0.46 cos(2 pi n / (N-1))`. -/
def hammingW (N i : ℕ) : ℝ :=
  0.54 - 0.46 * Real.cos (2 * Real.pi * (i : ℝ) / ((N : ℝ) - 1))

/-- `scipy.signal.get_window('blackman', N, fftbins=False)`:
`0.42 - 0.5 cos(2 pi n/(N-1)) + 0.08 cos(4 pi n/(N-1))`. -/
def blackmanW (N i : ℕ) : ℝ :=
  0.42 - 0.5 * Real.cos (2 * Real.pi * (i : ℝ) / ((N : ℝ) - 1)) +
    0.08 * Real.cos (4 * Real.pi * (i : ℝ) / ((N : ℝ) - 1))

/-- Modified Bessel function of the first kind of order zero, the series
used by `scipy.special.i0`. -/
def besselI0 (x : ℝ) : ℝ :=
  tsum (fun k : ℕ => (x / 2) ^ (2 * k) / ((Nat.factorial k : ℝ)) ^ 2)

/-- `scipy.signal.get_window(('kaiser', beta), N, fftbins=False)`:
`I0(beta sqrt(1 - (2n/(N-1) - 1)^2)) / I0(beta)`. -/
def kaiserW (beta : ℝ) (N i : ℕ) : ℝ :=
  besselI0 (beta * Real.sqrt (1 - (2 * (i : ℝ) / ((N : ℝ) - 1) - 1) ^ 2)) /
    besselI0 beta

/-- `FilterCalculator.create_window` (lines 280-307).  The returned window
is the length-`order` sequence as a function of the index.  As in the
source, a name containing `'Kaiser'` is sent to the catalog for its `beta`
(a `KeyError` if absent), the five fixed names get their scipy windows, and
anything else raises `ValueError` ("Janela nao suportada"). -/
def create_window (window_name : String) (order : ℕ) : Except String (ℕ → ℝ) :=
  if containsSub kaiserChars window_name.toList then
    match lookupWindow window_name with
    | none => .error "KeyError"
    | some p =>
      match p.beta with
      | none => .error "KeyError"
      | some beta => .ok (kaiserW beta order)
  else if window_name = "Retangular" then .ok (boxcarW order)
  else if window_name = "Bartlett" then .ok (bartlettW order)
  else if window_name = "Hanning" then .ok (hannW order)
  else if window_name = "Hamming" then .ok (hammingW order)
  else if window_name = "Blackman" then .ok (blackmanW order)
  else .error ("Janela nao suportada: " ++ window_name)

/-- The dictionary returned by `design_filter` (lines 361-370), restricted
to the design-engine fields the claims are about.  Sequences of length
`order` are represented as functions on indices. -/
structure DesignResult where
  coefficients : ℕ → ℝ
  ideal_response : ℕ → ℝ
  window : ℕ → ℝ
  order : ℤ
  cutoff_frequencies : List ℝ
  delta_f_norm : ℝ

/-- Lines 336-349 of `design_filter`: choose the ideal response from the
filter type, normalizing each cutoff by the Nyquist frequency.  List
indexing `fc_list[i]` out of range raises `IndexError`. -/
def selectIdeal (filter_type : String) (order : ℕ) (nyquist : ℝ)
    (fc_list : List ℝ) : Except String (ℕ → ℝ) :=
  if filter_type = "Passa-Baixa" then
    match fc_list with
    | fc :: _ => .ok (idealLowpass order (fc / nyquist))
    | [] => .error "IndexError"
  else if filter_type = "Passa-Alta" then
    match fc_list with
    | fc :: _ => .ok (idealHighpass order (fc / nyquist))
    | [] => .error "IndexError"
  else if filter_type = "Passa-Banda" then
    match fc_list with
    | fc1 :: fc2 :: _ => .ok (idealBandpass order (fc1 / nyquist) (fc2 / nyquist))
    | _ => .error "IndexError"
  else
    match fc_list with
    | fc1 :: fc2 :: _ => .ok (idealBandstop order (fc1 / nyquist) (fc2 / nyquist))
    | _ => .error "IndexError"

/-- `FilterCalculator.design_filter` (lines 309-370): resolve cutoffs,
estimate the order, synthesize the ideal response, generate the window and
multiply pointwise (`h_windowed = h_ideal * window`). -/
def design_filter (filter_type : String) (fs : ℝ) (fp_values : FpValues)
    (transition_width stopband_atten : ℝ) (window_name : String) :
    Except String DesignResult :=
  match calculate_cutoff_frequencies filter_type fp_values transition_width fs with
  | .error e => .error e
  | .ok fc_list =>
    match calculate_filter_order transition_width fs window_name (some stopband_atten) with
    | .error e => .error e
    | .ok order =>
      let nyquist := fs / 2
      match selectIdeal filter_type order.toNat nyquist fc_list with
      | .error e => .error e
      | .ok h_ideal =>
        match create_window window_name order.toNat with
        | .error e => .error e
        | .ok window =>
          .ok { coefficients := fun i => h_ideal i * window i
                ideal_response := h_ideal
                window := window
                order := order
                cutoff_frequencies := fc_list
                delta_f_norm := transition_width / fs }

/-! ### Helper lemmas -/

theorem cast_reflect {N i : ℕ} (hi : i < N) :
    ((N - 1 - i : ℕ) : ℝ) = ((N : ℝ) - 1) - (i : ℝ) := by
  have h1 : (1 : ℕ) ≤ N := by omega
  have h2 : i ≤ N - 1 := by omega
  rw [Nat.cast_sub h2, Nat.cast_sub h1]
  norm_num

theorem reflect_center {N i : ℕ} (hi : i < N) :
    ((N - 1 - i : ℕ) : ℝ) - ((N : ℝ) - 1) / 2 =
      -((i : ℝ) - ((N : ℝ) - 1) / 2) := by
  rw [cast_reflect hi]; ring

theorem clampOdd_spec (z : ℤ) :
    Odd (clampOdd z) ∧ 11 ≤ clampOdd z ∧ clampOdd z ≤ 10001 := by
  rw [Int.odd_iff]
  simp only [clampOdd]
  split_ifs with h <;> omega

theorem idealLowpass_symm (N : ℕ) (fc : ℝ) {i : ℕ} (hi : i < N) :
    idealLowpass N fc (N - 1 - i) = idealLowpass N fc i := by
  simp only [idealLowpass]
  rw [reflect_center hi, abs_neg]
  split_ifs with h
  · rfl
  · simp only [mul_neg, Real.sin_neg, neg_div_neg_eq]

theorem idealHighpass_symm (N : ℕ) (fc : ℝ) {i : ℕ} (hi : i < N) :
    idealHighpass N fc (N - 1 - i) = idealHighpass N fc i := by
  simp only [idealHighpass]
  rw [reflect_center hi, abs_neg]
  split_ifs with h
  · rfl
  · simp only [mul_neg, Real.sin_neg, neg_div_neg_eq]

theorem idealBandpass_symm (N : ℕ) (fc1 fc2 : ℝ) {i : ℕ} (hi : i < N) :
    idealBandpass N fc1 fc2 (N - 1 - i) = idealBandpass N fc1 fc2 i := by
  simp only [idealBandpass]
  rw [reflect_center hi, abs_neg]
  split_ifs with h
  · rfl
  · simp only [mul_neg, Real.sin_neg, neg_div_neg_eq]

theorem idealBandstop_symm (N : ℕ) (fc1 fc2 : ℝ) {i : ℕ} (hi : i < N) :
    idealBandstop N fc1 fc2 (N - 1 - i) = idealBandstop N fc1 fc2 i := by
  simp only [idealBandstop]
  rw [reflect_center hi, abs_neg]
  split_ifs with h
  · rfl
  · set k := (i : ℝ) - ((N : ℝ) - 1) / 2 with hk
    simp only [mul_neg, Real.sin_neg, neg_div_neg_eq]
    congr 1
    rw [show -Real.sin (Real.pi * fc2 * k) - -Real.sin (Real.pi * fc1 * k) =
      -(Real.sin (Real.pi * fc2 * k) - Real.sin (Real.pi * fc1 * k)) by ring,
      neg_div_neg_eq]

theorem cos_four_pi_sub (x : ℝ) :
    Real.cos (4 * Real.pi - x) = Real.cos x := by
  rw [show 4 * Real.pi - x = 2 * Real.pi - x + 2 * Real.pi by ring,
    Real.cos_add_two_pi, Real.cos_two_pi_sub]

theorem boxcarW_symm (N : ℕ) {i : ℕ} (_hi : i < N) :
    boxcarW N (N - 1 - i) = boxcarW N i := rfl

theorem bartlettW_symm (N : ℕ) {i : ℕ} (hi : i < N) :
    bartlettW N (N - 1 - i) = bartlettW N i := by
  by_cases h1 : N < 2
  · have hi0 : i = 0 := by omega
    have hN0 : N - 1 - i = 0 := by omega
    rw [hN0, hi0]
  · have hL : ((N : ℝ) - 1) ≠ 0 := by
      have : (2 : ℝ) ≤ (N : ℝ) := by exact_mod_cast (by omega : 2 ≤ N)
      linarith
    simp only [bartlettW]
    rw [cast_reflect hi]
    split_ifs with ha hb hb
    · have hx : (i : ℝ) = ((N : ℝ) - 1) / 2 := le_antisymm hb (by linarith)
      rw [hx]; ring
    · field_simp; ring
    · field_simp; ring
    · exfalso
      push_neg at ha hb
      linarith

theorem hannW_symm (N : ℕ) {i : ℕ} (hi : i < N) :
    hannW N (N - 1 - i) = hannW N i := by
  by_cases h1 : N < 2
  · have hi0 : i = 0 := by omega
    have hN0 : N - 1 - i = 0 := by omega
    rw [hN0, hi0]
  · have hL : ((N : ℝ) - 1) ≠ 0 := by
      have : (2 : ℝ) ≤ (N : ℝ) := by exact_mod_cast (by omega : 2 ≤ N)
      linarith
    simp only [hannW]
    rw [cast_reflect hi,
      show 2 * Real.pi * (((N : ℝ) - 1) - (i : ℝ)) / ((N : ℝ) - 1) =
        2 * Real.pi - 2 * Real.pi * (i : ℝ) / ((N : ℝ) - 1) by field_simp; ring,
      Real.cos_two_pi_sub]

theorem hammingW_symm (N : ℕ) {i : ℕ} (hi : i < N) :
    hammingW N (N - 1 - i) = hammingW N i := by
  by_cases h1 : N < 2
  · have hi0 : i = 0 := by omega
    have hN0 : N - 1 - i = 0 := by omega
    rw [hN0, hi0]
  · have hL : ((N : ℝ) - 1) ≠ 0 := by
      have : (2 : ℝ) ≤ (N : ℝ) := by exact_mod_cast (by omega : 2 ≤ N)
      linarith
    simp only [hammingW]
    rw [cast_reflect hi,
      show 2 * Real.pi * (((N : ℝ) - 1) - (i : ℝ)) / ((N : ℝ) - 1) =
        2 * Real.pi - 2 * Real.pi * (i : ℝ) / ((N : ℝ) - 1) by field_simp; ring,
      Real.cos_two_pi_sub]

theorem blackmanW_symm (N : ℕ) {i : ℕ} (hi : i < N) :
    blackmanW N (N - 1 - i) = blackmanW N i := by
  by_cases h1 : N < 2
  · have hi0 : i = 0 := by omega
    have hN0 : N - 1 - i = 0 := by omega
    rw [hN0, hi0]
  · have hL : ((N : ℝ) - 1) ≠ 0 := by
      have : (2 : ℝ) ≤ (N : ℝ) := by exact_mod_cast (by omega : 2 ≤ N)
      linarith
    simp only [blackmanW]
    rw [cast_reflect hi,
      show 2 * Real.pi * (((N : ℝ) - 1) - (i : ℝ)) / ((N : ℝ) - 1) =
        2 * Real.pi - 2 * Real.pi * (i : ℝ) / ((N : ℝ) - 1) by field_simp; ring,
      Real.cos_two_pi_sub,
      show 4 * Real.pi * (((N : ℝ) - 1) - (i : ℝ)) / ((N : ℝ) - 1) =
        4 * Real.pi - 4 * Real.pi * (i : ℝ) / ((N : ℝ) - 1) by field_simp; ring,
      cos_four_pi_sub]

theorem kaiserW_symm (beta : ℝ) (N : ℕ) {i : ℕ} (hi : i < N) :
    kaiserW beta N (N - 1 - i) = kaiserW beta N i := by
  by_cases h1 : N < 2
  · have hi0 : i = 0 := by omega
    have hN0 : N - 1 - i = 0 := by omega
    rw [hN0, hi0]
  · have hL : ((N : ℝ) - 1) ≠ 0 := by
      have : (2 : ℝ) ≤ (N : ℝ) := by exact_mod_cast (by omega : 2 ≤ N)
      linarith
    simp only [kaiserW]
    rw [cast_reflect hi,
      show 2 * (((N : ℝ) - 1) - (i : ℝ)) / ((N : ℝ) - 1) - 1 =
        -(2 * (i : ℝ) / ((N : ℝ) - 1) - 1) by field_simp; ring,
      neg_sq]

/-- Every window that `create_window` returns is even-symmetric over its
`order` samples. -/
theorem create_window_symm {name : String} {N : ℕ} {w : ℕ → ℝ}
    (h : create_window name N = .ok w) {i : ℕ} (hi : i < N) :
    w (N - 1 - i) = w i := by
  unfold create_window at h
  split_ifs at h with h1 h2 h3 h4 h5 h6
  · rcases hl : lookupWindow name with _ | p
    · simp only [hl] at h
      exact absurd h (by simp)
    · simp only [hl] at h
      rcases hb : p.beta with _ | beta
      · simp only [hb] at h
        exact absurd h (by simp)
      · simp only [hb] at h
        have hw : kaiserW beta N = w := by
          simpa using h
        rw [← hw]
        exact kaiserW_symm beta N hi
  · have hw : boxcarW N = w := by simpa using h
    rw [← hw]; exact boxcarW_symm N hi
  · have hw : bartlettW N = w := by simpa using h
    rw [← hw]; exact bartlettW_symm N hi
  · have hw : hannW N = w := by simpa using h
    rw [← hw]; exact hannW_symm N hi
  · have hw : hammingW N = w := by simpa using h
    rw [← hw]; exact hammingW_symm N hi
  · have hw : blackmanW N = w := by simpa using h
    rw [← hw]; exact blackmanW_symm N hi

/-- Every ideal response that `selectIdeal` returns is even-symmetric over
its `order` samples. -/
theorem selectIdeal_symm {ft : String} {N : ℕ} {nyq : ℝ} {l : List ℝ}
    {hid : ℕ → ℝ} (h : selectIdeal ft N nyq l = .ok hid) {i : ℕ} (hi : i < N) :
    hid (N - 1 - i) = hid i := by
  unfold selectIdeal at h
  split_ifs at h with h1 h2 h3
  · rcases l with _ | ⟨fc, l⟩
    · exact absurd h (by simp)
    · have hw : idealLowpass N (fc / nyq) = hid := by simpa using h
      rw [← hw]; exact idealLowpass_symm N _ hi
  · rcases l with _ | ⟨fc, l⟩
    · exact absurd h (by simp)
    · have hw : idealHighpass N (fc / nyq) = hid := by simpa using h
      rw [← hw]; exact idealHighpass_symm N _ hi
  · rcases l with _ | ⟨fc1, _ | ⟨fc2, l⟩⟩
    · exact absurd h (by simp)
    · exact absurd h (by simp)
    · have hw : idealBandpass N (fc1 / nyq) (fc2 / nyq) = hid := by simpa using h
      rw [← hw]; exact idealBandpass_symm N _ _ hi
  · rcases l with _ | ⟨fc1, _ | ⟨fc2, l⟩⟩
    · exact absurd h (by simp)
    · exact absurd h (by simp)
    · have hw : idealBandstop N (fc1 / nyq) (fc2 / nyq) = hid := by simpa using h
      rw [← hw]; exact idealBandstop_symm N _ _ hi

theorem lookup_retangular : lookupWindow "Retangular" = some retangularParams := by
  simp [lookupWindow, window_parameters, List.find?]

theorem lookup_bartlett : lookupWindow "Bartlett" = some bartlettParams := by
  simp [lookupWindow, window_parameters, List.find?]

theorem lookup_hanning : lookupWindow "Hanning" = some hanningParams := by
  simp [lookupWindow, window_parameters, List.find?]

theorem lookup_hamming : lookupWindow "Hamming" = some hammingParams := by
  simp [lookupWindow, window_parameters, List.find?]

theorem lookup_blackman : lookupWindow "Blackman" = some blackmanParams := by
  simp [lookupWindow, window_parameters, List.find?]

theorem lookup_kaiser454 : lookupWindow "Kaiser_beta_4.54" = some kaiser454Params := by
  simp [lookupWindow, window_parameters, List.find?]

theorem lookup_kaiser676 : lookupWindow "Kaiser_beta_6.76" = some kaiser676Params := by
  simp [lookupWindow, window_parameters, List.find?]

theorem lookup_kaiser896 : lookupWindow "Kaiser_beta_8.96" = some kaiser896Params := by
  simp [lookupWindow, window_parameters, List.find?]

/-- A successful catalog lookup only happens at one of the eight catalog
names, with the corresponding parameter record. -/
theorem lookupWindow_cases {name : String} {p : WindowParams}
    (h : lookupWindow name = some p) :
    name = "Retangular" ∧ p = retangularParams ∨
    name = "Bartlett" ∧ p = bartlettParams ∨
    name = "Hanning" ∧ p = hanningParams ∨
    name = "Hamming" ∧ p = hammingParams ∨
    name = "Blackman" ∧ p = blackmanParams ∨
    name = "Kaiser_beta_4.54" ∧ p = kaiser454Params ∨
    name = "Kaiser_beta_6.76" ∧ p = kaiser676Params ∨
    name = "Kaiser_beta_8.96" ∧ p = kaiser896Params := by
  unfold lookupWindow at h
  rw [Option.map_eq_some'] at h
  obtain ⟨q, hq, hq2⟩ := h
  have hmem := List.mem_of_find?_eq_some hq
  have hbeq := List.find?_some hq
  have hname : q.1 = name := by
    simpa using hbeq
  simp only [window_parameters, List.mem_cons, List.not_mem_nil, or_false] at hmem
  rcases hmem with h8 | h8 | h8 | h8 | h8 | h8 | h8 | h8
  all_goals (subst h8; rw [← hname, ← hq2])
  · exact Or.inl ⟨rfl, rfl⟩
  · exact Or.inr (Or.inl ⟨rfl, rfl⟩)
  · exact Or.inr (Or.inr (Or.inl ⟨rfl, rfl⟩))
  · exact Or.inr (Or.inr (Or.inr (Or.inl ⟨rfl, rfl⟩)))
  · exact Or.inr (Or.inr (Or.inr (Or.inr (Or.inl ⟨rfl, rfl⟩))))
  · exact Or.inr (Or.inr (Or.inr (Or.inr (Or.inr (Or.inl ⟨rfl, rfl⟩)))))
  · exact Or.inr (Or.inr (Or.inr (Or.inr (Or.inr (Or.inr (Or.inl ⟨rfl, rfl⟩))))))
  · exact Or.inr (Or.inr (Or.inr (Or.inr (Or.inr (Or.inr (Or.inr ⟨rfl, rfl⟩))))))

/-- Reduction of `calculate_filter_order` for a catalog window whose name
does not contain `'Kaiser'`. -/
theorem order_nonkaiser {name : String} {p : WindowParams}
    (hl : lookupWindow name = some p)
    (hk : containsSub kaiserChars name.toList = false)
    (tw fs : ℝ) (att : Option ℝ) :
    calculate_filter_order tw fs name att =
      .ok (clampOdd ⌈p.largura_transicao_normalizada / (tw / fs)⌉) := by
  unfold calculate_filter_order
  rw [hl]
  simp only [hk]
  simp

/-- Reduction of `calculate_filter_order` for a catalog window whose name
contains `'Kaiser'` and which has a shape parameter. -/
theorem order_kaiser {name : String} {p : WindowParams}
    (hl : lookupWindow name = some p)
    (hk : containsSub kaiserChars name.toList = true)
    {b : ℝ} (hb : p.beta = some b)
    (tw fs : ℝ) (att : Option ℝ) :
    calculate_filter_order tw fs name att =
      .ok (clampOdd ⌈((match att with
        | none => p.atenuacao_banda_rejeicao_db
        | some a => if a = 0 then p.atenuacao_banda_rejeicao_db else a) - 8) /
          (2.285 * 2 * Real.pi * (tw / fs))⌉) := by
  unfold calculate_filter_order
  rw [hl]
  simp only [hk, hb]
  simp

/-- In the catalog, having `'Kaiser'` in the name and having a `beta`
parameter coincide. -/
theorem kaiser_iff_beta {name : String} {p : WindowParams}
    (h : lookupWindow name = some p) :
    containsSub kaiserChars name.toList = true ↔ p.beta.isSome = true := by
  rcases lookupWindow_cases h with
    ⟨h1, h2⟩ | ⟨h1, h2⟩ | ⟨h1, h2⟩ | ⟨h1, h2⟩ | ⟨h1, h2⟩ | ⟨h1, h2⟩ | ⟨h1, h2⟩ | ⟨h1, h2⟩ <;>
    subst h1 <;> subst h2 <;> decide

/-- Definitional reduction of the LowPass branch of
`calculate_cutoff_frequencies`. -/
theorem cutoff_lowpass (fp tw fs : ℝ) :
    calculate_cutoff_frequencies "Passa-Baixa" (.single fp) tw fs =
      if fp ≥ fs / 2 then
        .error "Frequencia da banda passante deve ser menor que Fs/2"
      else .ok [(fp + (fp + tw)) / 2] := rfl

/-- Definitional reduction of the HighPass branch of
`calculate_cutoff_frequencies`. -/
theorem cutoff_highpass (fp tw fs : ℝ) :
    calculate_cutoff_frequencies "Passa-Alta" (.single fp) tw fs =
      if fp ≥ fs / 2 then
        .error "Frequencia da banda passante deve ser menor que Fs/2"
      else if fp - tw ≤ 0 then
        .error "Para passa-alta: fp - largura_transicao deve ser > 0"
      else .ok [(fp - tw + fp) / 2] := rfl

/-- Definitional reduction of the BandPass branch of
`calculate_cutoff_frequencies`. -/
theorem cutoff_bandpass (fp1 fp2 tw fs : ℝ) :
    calculate_cutoff_frequencies "Passa-Banda" (.pair fp1 fp2) tw fs =
      if fp1 ≥ fp2 then .error "Frequencia inferior deve ser menor que a superior"
      else if fp2 ≥ fs / 2 then .error "Frequencia superior deve ser menor que Fs/2"
      else if fp1 ≤ 0 then .error "Frequencia inferior deve ser positiva"
      else if fp1 - tw ≤ 0 then
        .error "Para passa-banda: fp1 - largura_transicao deve ser > 0"
      else if fp2 + tw ≥ fs / 2 then
        .error "Para passa-banda: fp2 + largura_transicao deve ser < Fs/2"
      else .ok [(fp1 - tw + fp1) / 2, (fp2 + (fp2 + tw)) / 2] := rfl

/-- Definitional reduction of the BandStop branch of
`calculate_cutoff_frequencies`. -/
theorem cutoff_bandstop (fp1 fp2 tw fs : ℝ) :
    calculate_cutoff_frequencies "Rejeita-Banda" (.pair fp1 fp2) tw fs =
      if fp1 ≥ fp2 then .error "Frequencia inferior deve ser menor que a superior"
      else if fp2 ≥ fs / 2 then .error "Frequencia superior deve ser menor que Fs/2"
      else if fp1 ≤ 0 then .error "Frequencia inferior deve ser positiva"
      else if fp1 - tw ≤ 0 then
        .error "Para rejeita-banda: fp1 - largura_transicao deve ser > 0"
      else if fp2 + tw ≥ fs / 2 then
        .error "Para rejeita-banda: fp2 + largura_transicao deve ser < Fs/2"
      else .ok [(fp1 - tw + fp1) / 2, (fp2 + (fp2 + tw)) / 2] := rfl

/-! ### Claims -/

/-- C10: for every filter type string other than the four recognized types,
`calculate_cutoff_frequencies` returns the empty list without raising any
error, for all band-edge, transition-width and sample-rate arguments. -/
theorem claim_C10_unknown_type_ok_nil :
    ∀ filter_type : String, filter_type ≠ "Passa-Baixa" → filter_type ≠ "Passa-Alta" →
      filter_type ≠ "Passa-Banda" → filter_type ≠ "Rejeita-Banda" →
      ∀ (fp_values : FpValues) (tw fs : ℝ),
        calculate_cutoff_frequencies filter_type fp_values tw fs = .ok [] := by
  intro ft h1 h2 h3 h4 fp tw fs
  simp [calculate_cutoff_frequencies, h1, h2, h3, h4]

/-- Witness for C10 at the concrete filter type `"Butterworth"`. -/
theorem claim_C10_witness :
    calculate_cutoff_frequencies "Butterworth" (.single 1000) 100 8000 = .ok [] :=
  claim_C10_unknown_type_ok_nil "Butterworth" (by decide) (by decide) (by decide)
    (by decide) (.single 1000) 100 8000

/-- C6: for LowPass, `calculate_cutoff_frequencies` fails with the
`InvalidSpecification` error exactly when `fp ≥ fs/2`; on success it
returns the single cutoff `(fp + (fp + tw))/2`; and at
`fp = 4500, tw = 100, fs = 8000` it fails. -/
theorem claim_C6_lowpass_error_iff :
    (∀ fp tw fs : ℝ,
      (calculate_cutoff_frequencies "Passa-Baixa" (.single fp) tw fs =
          .error "Frequencia da banda passante deve ser menor que Fs/2" ↔ fp ≥ fs / 2) ∧
      (fp < fs / 2 →
        calculate_cutoff_frequencies "Passa-Baixa" (.single fp) tw fs =
          .ok [(fp + (fp + tw)) / 2])) ∧
    calculate_cutoff_frequencies "Passa-Baixa" (.single 4500) 100 8000 =
      .error "Frequencia da banda passante deve ser menor que Fs/2" := by
  constructor
  · intro fp tw fs
    constructor
    · rw [cutoff_lowpass]
      constructor
      · intro h
        by_contra hlt
        rw [if_neg hlt] at h
        exact absurd h (by simp)
      · intro h
        rw [if_pos h]
    · intro h
      rw [cutoff_lowpass, if_neg (not_le.mpr h)]
  · rw [cutoff_lowpass, if_pos (by norm_num)]

/-- Witness for C6: a LowPass specification that is accepted, at concrete
inputs. -/
theorem claim_C6_witness :
    calculate_cutoff_frequencies "Passa-Baixa" (.single 1000) 100 8000 =
      .ok [(1000 + (1000 + 100)) / 2] :=
  (claim_C6_lowpass_error_iff.1 1000 100 8000).2 (by norm_num)

/-- C9: the BandPass and BandStop branches of
`calculate_cutoff_frequencies` accept exactly the same inputs and return
the same values; on success the returned pair is
`[(fp1 - tw + fp1)/2, (fp2 + (fp2 + tw))/2]`. -/
theorem claim_C9_bandpass_bandstop_agree :
    ∀ (fp_values : FpValues) (tw fs : ℝ),
      (calculate_cutoff_frequencies "Passa-Banda" fp_values tw fs).toOption =
        (calculate_cutoff_frequencies "Rejeita-Banda" fp_values tw fs).toOption ∧
      (∀ fp1 fp2 l, fp_values = .pair fp1 fp2 →
        calculate_cutoff_frequencies "Passa-Banda" fp_values tw fs = .ok l →
        l = [(fp1 - tw + fp1) / 2, (fp2 + (fp2 + tw)) / 2]) := by
  intro fp tw fs
  rcases fp with v | ⟨a, b⟩
  · constructor
    · rfl
    · intro fp1 fp2 l h
      exact absurd h (by simp)
  · constructor
    · rw [cutoff_bandpass, cutoff_bandstop]
      split_ifs <;> rfl
    · rintro fp1 fp2 l ⟨⟩ hok
      rw [cutoff_bandpass] at hok
      split_ifs at hok
      simpa using hok.symm

/-- Witness for C9 at the concrete BandPass scenario of the spec
(`Fs=8000`, edges `(1000, 2000)`, `tw=200`). -/
theorem claim_C9_witness :
    ([(900 : ℝ), 2100]) = [(1000 - 200 + 1000) / 2, (2000 + (2000 + 200)) / 2] := by
  have h := (claim_C9_bandpass_bandstop_agree (.pair 1000 2000) 200 8000).2 1000 2000
    [900, 2100] rfl
  apply h
  rw [cutoff_bandpass]
  norm_num

/-- C7: `get_available_windows A` returns exactly the names of the catalog
windows whose stopband attenuation is at least `A`, in catalog insertion
order; at `A = 60` it returns exactly
`[Blackman, Kaiser_beta_6.76, Kaiser_beta_8.96]`. -/
theorem claim_C7_available_windows :
    (∀ (A : ℝ) (name : String),
        name ∈ get_available_windows A ↔
          ∃ p, (name, p) ∈ window_parameters ∧ p.atenuacao_banda_rejeicao_db ≥ A) ∧
    (∀ A : ℝ, (get_available_windows A).Sublist (window_parameters.map Prod.fst)) ∧
    get_available_windows 60 = ["Blackman", "Kaiser_beta_6.76", "Kaiser_beta_8.96"] := by
  refine ⟨?_, ?_, ?_⟩
  · intro A name
    simp only [get_available_windows, List.mem_map, List.mem_filter]
    constructor
    · rintro ⟨⟨a, b⟩, ⟨hmem, hdec⟩, heq⟩
      simp only [] at heq
      subst heq
      exact ⟨b, hmem, of_decide_eq_true hdec⟩
    · rintro ⟨p, hmem, hge⟩
      exact ⟨(name, p), ⟨hmem, decide_eq_true hge⟩, rfl⟩
  · intro A
    exact List.Sublist.map _ (List.filter_sublist _)
  · simp only [get_available_windows, window_parameters, retangularParams,
      bartlettParams, hanningParams, hammingParams, blackmanParams,
      kaiser454Params, kaiser676Params, kaiser896Params,
      List.filter_cons, List.filter_nil, decide_eq_true_eq]
    norm_num

/-- Witness for C7, instantiating the membership characterization: Hamming
is available at a 50 dB requirement. -/
theorem claim_C7_witness :
    "Hamming" ∈ get_available_windows 50 :=
  (claim_C7_available_windows.1 50 "Hamming").mpr
    ⟨hammingParams, by simp [window_parameters], by norm_num [hammingParams]⟩

/-- C2 as stated is false: the LowPass branch accepts `fp = 3900`,
`tw = 500`, `fs = 8000` (all stated preconditions hold: `fp < fs/2`,
`tw > 0`, `fs > 0`) yet returns the cutoff `4150`, which is not strictly
below `fs/2 = 4000`. -/
theorem claim_C2_counterexample :
    calculate_cutoff_frequencies "Passa-Baixa" (.single 3900) 500 8000 = .ok [4150] ∧
    ¬ ((4150 : ℝ) < 8000 / 2) := by
  constructor
  · rw [cutoff_lowpass]
    norm_num
  · norm_num

/-- C2 amended: for the HighPass, BandPass and BandStop branches, every
accepted input with positive transition width yields cutoffs strictly
inside `(0, fs/2)`, with `fc1 < fc2` for the two-edge types; for the
LowPass branch the same holds under the additional assumptions `fp ≥ 0`
and `fp + tw < fs/2` (the derived stopband edge stays below Nyquist),
which the code does not check. -/
theorem claim_C2_amended :
    (∀ fp tw fs : ℝ, ∀ l : List ℝ, 0 < tw → 0 ≤ fp → fp + tw < fs / 2 →
      calculate_cutoff_frequencies "Passa-Baixa" (.single fp) tw fs = .ok l →
      ∃ c, l = [c] ∧ 0 < c ∧ c < fs / 2) ∧
    (∀ fp tw fs : ℝ, ∀ l : List ℝ, 0 < tw →
      calculate_cutoff_frequencies "Passa-Alta" (.single fp) tw fs = .ok l →
      ∃ c, l = [c] ∧ 0 < c ∧ c < fs / 2) ∧
    (∀ fp1 fp2 tw fs : ℝ, ∀ l : List ℝ, 0 < tw →
      calculate_cutoff_frequencies "Passa-Banda" (.pair fp1 fp2) tw fs = .ok l →
      ∃ c1 c2, l = [c1, c2] ∧ 0 < c1 ∧ c1 < c2 ∧ c2 < fs / 2) ∧
    (∀ fp1 fp2 tw fs : ℝ, ∀ l : List ℝ, 0 < tw →
      calculate_cutoff_frequencies "Rejeita-Banda" (.pair fp1 fp2) tw fs = .ok l →
      ∃ c1 c2, l = [c1, c2] ∧ 0 < c1 ∧ c1 < c2 ∧ c2 < fs / 2) := by
  refine ⟨?_, ?_, ?_, ?_⟩
  · intro fp tw fs l htw hfp hny h
    rw [cutoff_lowpass] at h
    split_ifs at h with h1
    refine ⟨(fp + (fp + tw)) / 2, (Except.ok.inj h).symm, by linarith, by linarith⟩
  · intro fp tw fs l htw h
    rw [cutoff_highpass] at h
    split_ifs at h with h1 h2
    push_neg at h1 h2
    refine ⟨(fp - tw + fp) / 2, (Except.ok.inj h).symm, by linarith, by linarith⟩
  · intro fp1 fp2 tw fs l htw h
    rw [cutoff_bandpass] at h
    split_ifs at h with h1 h2 h3 h4 h5
    push_neg at h1 h2 h3 h4 h5
    refine ⟨(fp1 - tw + fp1) / 2, (fp2 + (fp2 + tw)) / 2, (Except.ok.inj h).symm,
      by linarith, by linarith, by linarith⟩
  · intro fp1 fp2 tw fs l htw h
    rw [cutoff_bandstop] at h
    split_ifs at h with h1 h2 h3 h4 h5
    push_neg at h1 h2 h3 h4 h5
    refine ⟨(fp1 - tw + fp1) / 2, (fp2 + (fp2 + tw)) / 2, (Except.ok.inj h).symm,
      by linarith, by linarith, by linarith⟩

/-- Witness for the amended C2, at the spec's BandPass scenario. -/
theorem claim_C2_witness :
    ∃ c1 c2, ([(900 : ℝ), 2100]) = [c1, c2] ∧ 0 < c1 ∧ c1 < c2 ∧ c2 < 8000 / 2 := by
  apply claim_C2_amended.2.2.1 1000 2000 200 8000 [900, 2100] (by norm_num)
  rw [cutoff_bandpass]
  norm_num

/-- Reduction of `referenceOrder` for a catalog window with a shape
parameter. -/
theorem reference_kaiser {name : String} {p : WindowParams}
    (hl : lookupWindow name = some p) {b : ℝ} (hb : p.beta = some b)
    (tw fs : ℝ) (att : Option ℝ) :
    referenceOrder tw fs name att =
      .ok (clampOdd ⌈(att.getD p.atenuacao_banda_rejeicao_db - 8) /
        (2.285 * 2 * Real.pi * (tw / fs))⌉) := by
  unfold referenceOrder
  rw [hl]
  simp only [hb]

/-- Reduction of `referenceOrder` for a catalog window without a shape
parameter. -/
theorem reference_nonkaiser {name : String} {p : WindowParams}
    (hl : lookupWindow name = some p) (hb : p.beta = none)
    (tw fs : ℝ) (att : Option ℝ) :
    referenceOrder tw fs name att =
      .ok (clampOdd ⌈p.largura_transicao_normalizada / (tw / fs)⌉) := by
  unfold referenceOrder
  rw [hl]
  simp only [hb]

/-- `ceil((50 - 8) / (2.285 * 2 * pi * (500/8000))) = 47`, the spec's
Kaiser-order scenario. -/
theorem ceil_kaiser454 :
    (⌈((50 : ℝ) - 8) / (2.285 * 2 * Real.pi * (500 / 8000))⌉ : ℤ) = 47 := by
  have h1 := Real.pi_gt_d6
  have h2 := Real.pi_lt_d6
  have hpos : (0 : ℝ) < 2.285 * 2 * Real.pi * (500 / 8000) := by positivity
  rw [Int.ceil_eq_iff]
  constructor
  · rw [lt_div_iff₀ hpos]
    nlinarith
  · rw [div_le_iff₀ hpos]
    nlinarith

/-- `ceil((0 - 8) / (2.285 * 2 * pi * (500/8000))) = -8`: the value the
spec's reference formula produces if a supplied attenuation of `0` is
honoured. -/
theorem ceil_kaiser454_zero :
    (⌈((0 : ℝ) - 8) / (2.285 * 2 * Real.pi * (500 / 8000))⌉ : ℤ) = -8 := by
  have h1 := Real.pi_gt_d6
  have h2 := Real.pi_lt_d6
  have hpos : (0 : ℝ) < 2.285 * 2 * Real.pi * (500 / 8000) := by positivity
  rw [Int.ceil_eq_iff]
  constructor
  · rw [lt_div_iff₀ hpos]
    nlinarith
  · rw [div_le_iff₀ hpos]
    nlinarith

/-- `ceil(3.3 / (500/8000)) = 53`, the spec's Hamming scenario. -/
theorem ceil_hamming :
    (⌈(3.3 : ℝ) / (500 / 8000)⌉ : ℤ) = 53 := by
  rw [Int.ceil_eq_iff]
  norm_num

/-- C3: for every transition width `> 0`, sample rate `> 0` and window
name in the catalog, with any optional attenuation argument, the order
returned by `calculate_filter_order` is an odd integer between 11 and
10001. -/
theorem claim_C3_order_invariants :
    ∀ (tw fs : ℝ) (name : String) (att : Option ℝ) (p : WindowParams),
      0 < tw → 0 < fs → lookupWindow name = some p →
      ∃ n, calculate_filter_order tw fs name att = .ok n ∧
        Odd n ∧ 11 ≤ n ∧ n ≤ 10001 := by
  intro tw fs name att p htw hfs hl
  cases hk : containsSub kaiserChars name.toList
  · rw [order_nonkaiser hl hk]
    exact ⟨_, rfl, clampOdd_spec _⟩
  · obtain ⟨b, hb⟩ : ∃ b, p.beta = some b := by
      have hs := (kaiser_iff_beta hl).mp hk
      rcases hbeta : p.beta with _ | b
      · rw [hbeta] at hs
        exact absurd hs (by simp)
      · exact ⟨b, rfl⟩
    rw [order_kaiser hl hk hb]
    exact ⟨_, rfl, clampOdd_spec _⟩

/-- Witness for C3, at the spec's Hamming scenario. -/
theorem claim_C3_witness :
    ∃ n, calculate_filter_order 500 8000 "Hamming" none = .ok n ∧
      Odd n ∧ 11 ≤ n ∧ n ≤ 10001 :=
  claim_C3_order_invariants 500 8000 "Hamming" none hammingParams
    (by norm_num) (by norm_num) lookup_hamming

/-- C4 as stated is false: with a supplied attenuation of `0` (a provided
value, but falsy in Python), `calculate_filter_order` falls back to the
catalog's 50 dB and returns 47, while the reference definition honours the
supplied `0` and returns 11. -/
theorem claim_C4_counterexample :
    calculate_filter_order 500 8000 "Kaiser_beta_4.54" (some 0) = .ok 47 ∧
    referenceOrder 500 8000 "Kaiser_beta_4.54" (some 0) = .ok 11 ∧
    calculate_filter_order 500 8000 "Kaiser_beta_4.54" (some 0) ≠
      referenceOrder 500 8000 "Kaiser_beta_4.54" (some 0) := by
  have hcode : calculate_filter_order 500 8000 "Kaiser_beta_4.54" (some 0) = .ok 47 := by
    rw [order_kaiser lookup_kaiser454 (by decide) (show kaiser454Params.beta = some 4.54 from rfl)]
    have hm : (match (some (0 : ℝ) : Option ℝ) with
        | none => kaiser454Params.atenuacao_banda_rejeicao_db
        | some a => if a = 0 then kaiser454Params.atenuacao_banda_rejeicao_db else a) =
        (50 : ℝ) := by
      simp [kaiser454Params]
    rw [hm, ceil_kaiser454, show clampOdd 47 = 47 from by decide]
  have href : referenceOrder 500 8000 "Kaiser_beta_4.54" (some 0) = .ok 11 := by
    rw [reference_kaiser lookup_kaiser454 (show kaiser454Params.beta = some 4.54 from rfl)]
    have hm : (some (0 : ℝ)).getD kaiser454Params.atenuacao_banda_rejeicao_db = 0 := rfl
    rw [hm, ceil_kaiser454_zero, show clampOdd (-8) = 11 from by decide]
  refine ⟨hcode, href, ?_⟩
  rw [hcode, href]
  simp

/-- C4 amended: `calculate_filter_order` computes the two-branch reference
definition, with `A'` the supplied attenuation if provided *and nonzero*
(a supplied `0` is falsy in Python and falls back to the catalog nominal
value); in particular the Hamming scenario returns 53 and the
`Kaiser(beta=4.54)` scenario with no override returns 47. -/
theorem claim_C4_amended :
    (∀ (tw fs : ℝ) (name : String) (att : Option ℝ),
      (∀ a, att = some a → a ≠ 0) →
      calculate_filter_order tw fs name att = referenceOrder tw fs name att) ∧
    calculate_filter_order 500 8000 "Hamming" none = .ok 53 ∧
    calculate_filter_order 500 8000 "Kaiser_beta_4.54" none = .ok 47 := by
  refine ⟨?_, ?_, ?_⟩
  · intro tw fs name att hatt
    rcases hl : lookupWindow name with _ | p
    · unfold calculate_filter_order referenceOrder
      rw [hl]
    · cases hk : containsSub kaiserChars name.toList
      · have hbnone : p.beta = none := by
          rcases hbeta : p.beta with _ | b
          · rfl
          · have hs := (kaiser_iff_beta hl).mpr (by rw [hbeta]; rfl)
            rw [hk] at hs
            exact absurd hs (by simp)
        rw [order_nonkaiser hl hk, reference_nonkaiser hl hbnone]
      · obtain ⟨b, hb⟩ : ∃ b, p.beta = some b := by
          have hs := (kaiser_iff_beta hl).mp hk
          rcases hbeta : p.beta with _ | b
          · rw [hbeta] at hs
            exact absurd hs (by simp)
          · exact ⟨b, rfl⟩
        rw [order_kaiser hl hk hb, reference_kaiser hl hb]
        rcases att with _ | a
        · rfl
        · have ha : a ≠ 0 := hatt a rfl
          simp [ha]
  · rw [order_nonkaiser lookup_hamming (by decide)]
    rw [show hammingParams.largura_transicao_normalizada = (3.3 : ℝ) from rfl]
    rw [ceil_hamming, show clampOdd 53 = 53 from by decide]
  · rw [order_kaiser lookup_kaiser454 (by decide) (show kaiser454Params.beta = some 4.54 from rfl)]
    have hm : (match (none : Option ℝ) with
        | none => kaiser454Params.atenuacao_banda_rejeicao_db
        | some a => if a = 0 then kaiser454Params.atenuacao_banda_rejeicao_db else a) =
        (50 : ℝ) := rfl
    rw [hm, ceil_kaiser454, show clampOdd 47 = 47 from by decide]

/-- Witness for the amended C4: the two order computations agree at a
nonzero supplied attenuation. -/
theorem claim_C4_witness :
    calculate_filter_order 500 8000 "Kaiser_beta_4.54" (some 60) =
      referenceOrder 500 8000 "Kaiser_beta_4.54" (some 60) := by
  apply claim_C4_amended.1 500 8000 "Kaiser_beta_4.54" (some 60)
  intro a ha
  injection ha with h
  rw [← h]
  norm_num

/-- C5: for every odd `N ≥ 1` and every normalized cutoff input, the center
sample at index `(N-1)/2` of each ideal response equals the analytic limit
value (`2 fc` for LowPass, `1 - fc` for HighPass, `fc2 - fc1` for BandPass,
`1 - (fc2 - fc1)` for BandStop), produced by the explicit `|k| < 1e-10`
branch. -/
theorem claim_C5_center_limit :
    ∀ N : ℕ, Odd N → ∀ fc fc1 fc2 : ℝ,
      idealLowpass N fc ((N - 1) / 2) = 2 * fc ∧
      idealHighpass N fc ((N - 1) / 2) = 1.0 - fc ∧
      idealBandpass N fc1 fc2 ((N - 1) / 2) = fc2 - fc1 ∧
      idealBandstop N fc1 fc2 ((N - 1) / 2) = 1 - (fc2 - fc1) := by
  intro N hN fc fc1 fc2
  obtain ⟨m, hm⟩ := hN
  have hidx : (N - 1) / 2 = m := by omega
  have hNr : (N : ℝ) = 2 * (m : ℝ) + 1 := by exact_mod_cast hm
  have hc : ((((N - 1) / 2 : ℕ)) : ℝ) - ((N : ℝ) - 1) / 2 = 0 := by
    rw [hidx, hNr]
    ring
  refine ⟨?_, ?_, ?_, ?_⟩
  · simp only [idealLowpass]
    rw [hc, if_pos (by norm_num)]
  · simp only [idealHighpass]
    rw [hc, if_pos (by norm_num)]
  · simp only [idealBandpass]
    rw [hc, if_pos (by norm_num)]
  · simp only [idealBandstop]
    rw [hc, if_pos (by norm_num)]

/-- Witness for C5 at `N = 11` (center index 5) and concrete cutoffs. -/
theorem claim_C5_witness :
    idealLowpass 11 0.25 5 = 2 * 0.25 ∧
    idealHighpass 11 0.25 5 = 1.0 - 0.25 ∧
    idealBandpass 11 0.25 0.5 5 = 0.5 - 0.25 ∧
    idealBandstop 11 0.25 0.5 5 = 1 - (0.5 - 0.25) :=
  claim_C5_center_limit 11 ⟨5, by norm_num⟩ 0.25 0.25 0.5

/-- Reduction of `create_window` when the name contains `'Kaiser'`. -/
theorem create_window_kaiser_true {name : String}
    (hk : containsSub kaiserChars name.toList = true) (N : ℕ) :
    create_window name N =
      match lookupWindow name with
      | none => .error "KeyError"
      | some p =>
        match p.beta with
        | none => .error "KeyError"
        | some beta => .ok (kaiserW beta N) := by
  unfold create_window
  rw [if_pos hk]

/-- Reduction of `create_window` when the name does not contain
`'Kaiser'`. -/
theorem create_window_kaiser_false {name : String}
    (hk : containsSub kaiserChars name.toList = false) (N : ℕ) :
    create_window name N =
      (if name = "Retangular" then .ok (boxcarW N)
       else if name = "Bartlett" then .ok (bartlettW N)
       else if name = "Hanning" then .ok (hannW N)
       else if name = "Hamming" then .ok (hammingW N)
       else if name = "Blackman" then .ok (blackmanW N)
       else .error ("Janela nao suportada: " ++ name)) := by
  unfold create_window
  rw [if_neg (by rw [hk]; decide)]

/-- C8 as stated is false: the name `"Kaiser"` is outside the enumerated
variants, yet `create_window` fails with the dictionary `KeyError` from the
`beta` lookup (because the name contains `'Kaiser'`), not with the
UnsupportedWindow `ValueError`. -/
theorem claim_C8_counterexample :
    create_window "Kaiser" 11 = .error "KeyError" ∧
    create_window "Kaiser" 11 ≠ .error ("Janela nao suportada: " ++ "Kaiser") ∧
    lookupWindow "Kaiser" = none := by
  have hl : lookupWindow "Kaiser" = none := by
    simp [lookupWindow, window_parameters, List.find?]
  have h : create_window "Kaiser" 11 = .error "KeyError" := by
    rw [create_window_kaiser_true (by decide), hl]
  refine ⟨h, ?_, hl⟩
  rw [h]
  simp

/-- C8 amended: `create_window` succeeds for each of the eight enumerated
catalog names; for every other name not containing `'Kaiser'` as a
substring it fails with the UnsupportedWindow error; a name containing
`'Kaiser'` but missing from the catalog fails with a `KeyError` instead. -/
theorem claim_C8_amended :
    (∀ N : ℕ, ∀ name ∈ ["Retangular", "Bartlett", "Hanning", "Hamming", "Blackman",
        "Kaiser_beta_4.54", "Kaiser_beta_6.76", "Kaiser_beta_8.96"],
      ∃ w, create_window name N = .ok w) ∧
    (∀ (name : String) (N : ℕ), containsSub kaiserChars name.toList = false →
      name ∉ ["Retangular", "Bartlett", "Hanning", "Hamming", "Blackman"] →
      create_window name N = .error ("Janela nao suportada: " ++ name)) ∧
    (∀ (name : String) (N : ℕ), containsSub kaiserChars name.toList = true →
      lookupWindow name = none → create_window name N = .error "KeyError") := by
  refine ⟨?_, ?_, ?_⟩
  · intro N name hmem
    fin_cases hmem
    · exact ⟨boxcarW N, rfl⟩
    · exact ⟨bartlettW N, rfl⟩
    · exact ⟨hannW N, rfl⟩
    · exact ⟨hammingW N, rfl⟩
    · exact ⟨blackmanW N, rfl⟩
    · exact ⟨kaiserW 4.54 N, rfl⟩
    · exact ⟨kaiserW 6.76 N, rfl⟩
    · exact ⟨kaiserW 8.96 N, rfl⟩
  · intro name N hk hmem
    simp only [List.mem_cons, List.not_mem_nil, or_false, not_or] at hmem
    obtain ⟨h1, h2, h3, h4, h5⟩ := hmem
    rw [create_window_kaiser_false hk, if_neg h1, if_neg h2, if_neg h3, if_neg h4, if_neg h5]
  · intro name N hk hl
    rw [create_window_kaiser_true hk, hl]

/-- Witness for the amended C8 at a concrete unsupported name. -/
theorem claim_C8_witness :
    create_window "Janela" 11 = .error ("Janela nao suportada: " ++ "Janela") :=
  claim_C8_amended.2.1 "Janela" 11 (by decide) (by decide)

/-- C1: for every design accepted by `design_filter` (valid filter type,
positive sample rate and transition width, catalog window name), the
coefficient sequence is `ideal[i] * window[i]` and satisfies
`coefficients[i] = coefficients[N-1-i]` for every `i < N`, where `N` is the
returned order. -/
theorem claim_C1_coefficients_symmetric :
    ∀ (ft : String) (fs : ℝ) (fp_values : FpValues) (tw A : ℝ) (wname : String)
      (r : DesignResult),
      (ft = "Passa-Baixa" ∨ ft = "Passa-Alta" ∨ ft = "Passa-Banda" ∨ ft = "Rejeita-Banda") →
      0 < fs → 0 < tw → (∃ p, lookupWindow wname = some p) →
      design_filter ft fs fp_values tw A wname = .ok r →
      (∀ i, i < r.order.toNat → r.coefficients i = r.ideal_response i * r.window i) ∧
      (∀ i, i < r.order.toNat →
        r.coefficients i = r.coefficients (r.order.toNat - 1 - i)) := by
  intro ft fs fp tw A wname r _hft _hfs _htw _hcat hok
  unfold design_filter at hok
  rcases hc : calculate_cutoff_frequencies ft fp tw fs with e | fc_list
  · simp only [hc] at hok
    exact absurd hok (by simp)
  simp only [hc] at hok
  rcases ho : calculate_filter_order tw fs wname (some A) with e | order
  · simp only [ho] at hok
    exact absurd hok (by simp)
  simp only [ho] at hok
  rcases hs : selectIdeal ft order.toNat (fs / 2) fc_list with e | hid
  · simp only [hs] at hok
    exact absurd hok (by simp)
  simp only [hs] at hok
  rcases hw : create_window wname order.toNat with e | w
  · simp only [hw] at hok
    exact absurd hok (by simp)
  simp only [hw] at hok
  obtain rfl : ({ coefficients := fun i => hid i * w i
                  ideal_response := hid
                  window := w
                  order := order
                  cutoff_frequencies := fc_list
                  delta_f_norm := tw / fs } : DesignResult) = r := Except.ok.inj hok
  constructor
  · intro i _hi
    rfl
  · intro i hi
    show hid i * w i = hid (order.toNat - 1 - i) * w (order.toNat - 1 - i)
    rw [selectIdeal_symm hs hi, create_window_symm hw hi]

/-- Witness for C1: the spec's LowPass/Hamming scenario produces an
accepted design whose coefficients are the windowed ideal response, and
they are even-symmetric. -/
theorem claim_C1_witness :
    ∃ r, design_filter "Passa-Baixa" 8000 (.single 1500) 500 53 "Hamming" = .ok r ∧
      ((∀ i, i < r.order.toNat → r.coefficients i = r.ideal_response i * r.window i) ∧
       (∀ i, i < r.order.toNat →
         r.coefficients i = r.coefficients (r.order.toNat - 1 - i))) := by
  have hcut : calculate_cutoff_frequencies "Passa-Baixa" (.single 1500) 500 8000 =
      .ok [(1500 + (1500 + 500)) / 2] := by
    rw [cutoff_lowpass, if_neg (by norm_num)]
  have hord : calculate_filter_order 500 8000 "Hamming" (some 53) = .ok 53 := by
    rw [order_nonkaiser lookup_hamming (by decide),
      show hammingParams.largura_transicao_normalizada = (3.3 : ℝ) from rfl,
      ceil_hamming, show clampOdd 53 = 53 from by decide]
  have hsel : selectIdeal "Passa-Baixa" (Int.toNat 53) (8000 / 2)
      [(1500 + (1500 + 500)) / 2] =
      .ok (idealLowpass (Int.toNat 53) (((1500 : ℝ) + (1500 + 500)) / 2 / (8000 / 2))) := rfl
  have hwin : create_window "Hamming" (Int.toNat 53) =
      .ok (hammingW (Int.toNat 53)) := rfl
  have hok : design_filter "Passa-Baixa" 8000 (.single 1500) 500 53 "Hamming" =
      .ok { coefficients := fun i =>
              idealLowpass (Int.toNat 53) (((1500 : ℝ) + (1500 + 500)) / 2 / (8000 / 2)) i *
                hammingW (Int.toNat 53) i
            ideal_response :=
              idealLowpass (Int.toNat 53) (((1500 : ℝ) + (1500 + 500)) / 2 / (8000 / 2))
            window := hammingW (Int.toNat 53)
            order := 53
            cutoff_frequencies := [(1500 + (1500 + 500)) / 2]
            delta_f_norm := 500 / 8000 } := by
    unfold design_filter
    simp only [hcut, hord, hsel, hwin]
  exact ⟨_, hok, claim_C1_coefficients_symmetric "Passa-Baixa" 8000 (.single 1500) 500 53
    "Hamming" _ (Or.inl rfl) (by norm_num) (by norm_num) ⟨hammingParams, lookup_hamming⟩ hok⟩

end



